import Mathlib

/-!
Shallow embedding of the WORKWAY workflow validator
(`src/packages/rust-validator/src/validator.rs` and
`src/packages/rust-validator/src/patterns.rs`).

The Rust code drives all checks through precompiled regexes over the raw
workflow text.  Every regex used by the validator is anchored to simple,
deterministic shapes (literal keywords, `\s*`/`\s+` gaps, quoted captures,
character-class runs that stop at a mandatory delimiter), so each one is
translated here into an explicit total function over `List Char` whose doc
comment quotes the original pattern.  Character classes `\d`, `\s`, and the
case-insensitive flag `(?i)` are modelled over the ASCII range (the inputs
the validator is specified on); Rust's classes additionally accept
non-ASCII Unicode members, which no statement below depends on.
-/

/-- Characters of a string literal (helper to write `List Char` patterns). -/
def strChars (s : String) : List Char := s.data

/-- Single-quote character `'` (written via its code point). -/
def sqC : Char := '\x27'

/-- Double-quote character `"`. -/
def dqC : Char := '\x22'

/-- Backquote character. -/
def bqC : Char := '\x60'

/-- Left brace character. -/
def lbC : Char := '\x7b'

/-- Right brace character. -/
def rbC : Char := '\x7d'

/-- Quote character class, the regex class of the three quote characters
used throughout `patterns.rs`. -/
def isQuote (c : Char) : Bool := c = sqC || c = dqC || c = bqC

/-- Whitespace, modelling Rust's `\s` / `char::is_whitespace` on the ASCII
range: space, tab, newline, carriage return, vertical tab, form feed. -/
def isWs (c : Char) : Bool :=
  c = ' ' || c = '\t' || c = '\n' || c = '\r' || c = '\x0b' || c = '\x0c'

/-- ASCII decimal digit, modelling the regex class `\d` / `[0-9]`. -/
def isDigitCh (c : Char) : Bool := '0' ≤ c && c ≤ '9'

/-- ASCII lowercasing of one character, modelling the per-character effect
of Rust `str::to_lowercase` and of the regex `(?i)` flag on ASCII input. -/
def asciiLower (c : Char) : Char :=
  if 'A' ≤ c && c ≤ 'Z' then Char.ofNat (c.toNat + 32) else c

/-- Split a character list at every character satisfying `p`, keeping empty
pieces (the splitting discipline of Rust `str::split`). -/
def splitOnPred (p : Char → Bool) : List Char → List (List Char)
  | [] => [[]]
  | c :: cs =>
    match splitOnPred p cs with
    | [] => [[]]
    | q :: qs => if p c then [] :: q :: qs else (c :: q) :: qs

/-- Split at a separator character, as Rust `str::split(sep)`. -/
def splitOnChar (sep : Char) (l : List Char) : List (List Char) :=
  splitOnPred (fun c => c = sep) l

/-- Rust `str::trim`: drop whitespace from both ends. -/
def rustTrim (l : List Char) : List Char :=
  ((l.dropWhile isWs).reverse.dropWhile isWs).reverse

/-- Rust `str::split_whitespace`: maximal non-whitespace runs. -/
def rustSplitWhitespace (l : List Char) : List (List Char) :=
  (splitOnPred isWs l).filter (fun p => !p.isEmpty)

/-- Does some suffix of the list satisfy `p`?  This is how an unanchored
regex `is_match` is computed: the pattern may begin at any position. -/
def existsSuffix (p : List Char → Bool) : List Char → Bool
  | [] => p []
  | c :: t => p (c :: t) || existsSuffix p t

/-- Substring containment, modelling `str::contains` and `is_match` of a
literal pattern. -/
def containsSeq (needle hay : List Char) : Bool :=
  existsSuffix (fun l => needle.isPrefixOf l) hay

/-- Leftmost match of a position-anchored capturing matcher, modelling
`Regex::captures`: the first start position at which the pattern matches. -/
def firstSome {α : Type} (f : List Char → Option α) : List Char → Option α
  | [] => f []
  | c :: t =>
    match f (c :: t) with
    | some a => some a
    | none => firstSome f (t : List Char)

/-- All non-overlapping matches scanned left to right, modelling
`Regex::captures_iter`: after a match the scan resumes at the first
character past the match; after a failure it advances one character.  The
fuel argument bounds the recursion (every matcher used here consumes at
least one character per match). -/
def scanAll {α : Type} (f : List Char → Option (α × List Char)) :
    Nat → List Char → List α
  | 0, _ => []
  | _ + 1, [] =>
    match f [] with
    | some (a, _) => [a]
    | none => []
  | fuel + 1, c :: t =>
    match f (c :: t) with
    | some (a, rest) => a :: scanAll f fuel rest
    | none => scanAll f fuel t

/-- Digit run read as a natural number (Rust decimal parsing of a digit
string). -/
def digitsToNat (l : List Char) : Nat :=
  l.foldl (fun a c => a * 10 + (c.toNat - 48)) 0

/-- Rust `str::parse::<u32>()` as an `Option Nat`: an optional leading `+`,
then a nonempty all-digit run whose value fits in 32 bits. -/
def parseU32 (l : List Char) : Option Nat :=
  let l' := match l with
    | c :: t => if c = '+' then t else c :: t
    | [] => []
  if !l'.isEmpty && l'.all isDigitCh then
    let v := digitsToNat l'
    if v < 4294967296 then some v else none
  else none

/-!  ## Cron validation patterns (`patterns.rs`, CRON section) -/

/-- `CRON_STEP_WILDCARD`, regex `^\*/\d+$`. -/
def cronStepWildcard (l : List Char) : Bool :=
  match l with
  | c1 :: c2 :: rest => c1 = '*' && c2 = '/' && !rest.isEmpty && rest.all isDigitCh
  | _ => false

/-- `CRON_RANGE_LIST`, regex `^\d+(-\d+)?(,\d+(-\d+)?)*$`: comma-separated
segments, each a nonempty digit run or two nonempty digit runs joined by a
single dash. -/
def cronRangeList (l : List Char) : Bool :=
  (splitOnChar ',' l).all fun seg =>
    let ps := splitOnChar '-' seg
    (decide (ps.length = 1) || decide (ps.length = 2)) &&
      ps.all fun p => !p.isEmpty && p.all isDigitCh

/-- Optional step suffix `(\/(0|[1-9][0-9]?))?` anchored at the end: either
nothing remains, or a `/` followed by `0` or a one/two-digit number not
starting with `0`. -/
def cronStepOpt (l : List Char) : Bool :=
  match l with
  | [] => true
  | c :: rest =>
    c = '/' &&
      (match rest with
       | [d] => d = '0' || ('1' ≤ d && d ≤ '9')
       | [d, e] => ('1' ≤ d && d ≤ '9') && isDigitCh e
       | _ => false)

/-- `CRON_MINUTE`, regex `^(\*|[0-9]|[1-5][0-9])(\/(0|[1-9][0-9]?))?$|^\*/[0-9]+$`. -/
def cronMinute (l : List Char) : Bool :=
  cronStepWildcard l ||
  (match l with
   | '*' :: r => cronStepOpt r
   | _ => false) ||
  (match l with
   | c :: r => isDigitCh c && cronStepOpt r
   | _ => false) ||
  (match l with
   | c :: d :: r => ('1' ≤ c && c ≤ '5') && isDigitCh d && cronStepOpt r
   | _ => false)

/-- `CRON_HOUR`, regex `^(\*|[0-9]|1[0-9]|2[0-3])(\/(0|[1-9][0-9]?))?$|^\*/[0-9]+$`. -/
def cronHour (l : List Char) : Bool :=
  cronStepWildcard l ||
  (match l with
   | '*' :: r => cronStepOpt r
   | _ => false) ||
  (match l with
   | c :: r => isDigitCh c && cronStepOpt r
   | _ => false) ||
  (match l with
   | '1' :: d :: r => isDigitCh d && cronStepOpt r
   | _ => false) ||
  (match l with
   | '2' :: d :: r => ('0' ≤ d && d ≤ '3') && cronStepOpt r
   | _ => false)

/-- `CRON_DAY`, regex `^(\*|[1-9]|[12][0-9]|3[01])(\/(0|[1-9][0-9]?))?$|^\*/[0-9]+$`. -/
def cronDay (l : List Char) : Bool :=
  cronStepWildcard l ||
  (match l with
   | '*' :: r => cronStepOpt r
   | _ => false) ||
  (match l with
   | c :: r => ('1' ≤ c && c ≤ '9') && cronStepOpt r
   | _ => false) ||
  (match l with
   | c :: d :: r => (c = '1' || c = '2') && isDigitCh d && cronStepOpt r
   | _ => false) ||
  (match l with
   | '3' :: d :: r => (d = '0' || d = '1') && cronStepOpt r
   | _ => false)

/-- `CRON_MONTH`, regex `^(\*|[1-9]|1[0-2])(\/(0|[1-9][0-9]?))?$|^\*/[0-9]+$`. -/
def cronMonth (l : List Char) : Bool :=
  cronStepWildcard l ||
  (match l with
   | '*' :: r => cronStepOpt r
   | _ => false) ||
  (match l with
   | c :: r => ('1' ≤ c && c ≤ '9') && cronStepOpt r
   | _ => false) ||
  (match l with
   | '1' :: d :: r => ('0' ≤ d && d ≤ '2') && cronStepOpt r
   | _ => false)

/-- `CRON_WEEKDAY`, regex `^(\*|[0-6])(\/(0|[1-9][0-9]?))?$|^\*/[0-9]+$`. -/
def cronWeekday (l : List Char) : Bool :=
  cronStepWildcard l ||
  (match l with
   | '*' :: r => cronStepOpt r
   | _ => false) ||
  (match l with
   | c :: r => ('0' ≤ c && c ≤ '6') && cronStepOpt r
   | _ => false)

/-- The array `cron_patterns` of `is_valid_cron`, indexed as in the source:
minute, hour, day, month, weekday. -/
def cronFieldPattern (i : Nat) (l : List Char) : Bool :=
  match i with
  | 0 => cronMinute l
  | 1 => cronHour l
  | 2 => cronDay l
  | 3 => cronMonth l
  | _ => cronWeekday l

/-- The array `max_values = [59, 23, 31, 12, 6]` of `is_valid_cron`. -/
def maxValues (i : Nat) : Nat := [59, 23, 31, 12, 6].getD i 0

/-- Body of the per-field loop of `is_valid_cron`: `*` is accepted, then the
step-wildcard pattern, then the range/list pattern (whose numbers are parsed
as `u32` and bounded by the field maximum), and otherwise the field-specific
fine-grained pattern. -/
def cronFieldOk (i : Nat) (part : List Char) : Bool :=
  if part = ['*'] then true
  else if cronStepWildcard part then true
  else if cronRangeList part then
    (splitOnChar ',' part).all fun seg =>
      (splitOnChar '-' seg).all fun num =>
        match parseU32 num with
        | some n => decide (n ≤ maxValues i)
        | none => false
  else cronFieldPattern i part

/-- `is_valid_cron` (`validator.rs`): trim, split on whitespace, require
exactly five fields, then check every field with its index. -/
def is_valid_cron (expr : String) : Bool :=
  let parts := rustSplitWhitespace (rustTrim expr.data)
  if parts.length ≠ 5 then false
  else (parts.enum).all fun ip => cronFieldOk ip.1 ip.2

example : is_valid_cron "0 8 * * *" = true := by decide
example : is_valid_cron "*/15 * * * *" = true := by decide
example : is_valid_cron "0 0 1 * *" = true := by decide
example : is_valid_cron "invalid" = false := by decide
example : is_valid_cron "0 25 * * *" = false := by decide
example : is_valid_cron "60 0 1 1 0" = false := by decide
example : is_valid_cron "50-10 * * * *" = true := by decide
example : is_valid_cron "0-60 * * * *" = false := by decide
example : is_valid_cron "*/0 * * * *" = true := by decide

/-!  ## Import / workflow / execute patterns (`patterns.rs`) -/

/-- `SDK_IMPORT`, regex `@workway/sdk`. -/
def sdkImportMatch (c : List Char) : Bool := containsSeq (strChars "@workway/sdk") c

/-- `AI_USAGE`, regex `createAIClient|AIModels|env\.AI|workers-ai`. -/
def aiUsageMatch (c : List Char) : Bool :=
  containsSeq (strChars "createAIClient") c || containsSeq (strChars "AIModels") c ||
    containsSeq (strChars "env.AI") c || containsSeq (strChars "workers-ai") c

/-- `WORKERS_AI_IMPORT`, regex `@workway/sdk/workers-ai`. -/
def workersAiImportMatch (c : List Char) : Bool :=
  containsSeq (strChars "@workway/sdk/workers-ai") c

/-- `DEFINE_WORKFLOW`, regex `defineWorkflow\s*\(`. -/
def defineWorkflowMatch (c : List Char) : Bool :=
  existsSuffix
    (fun l =>
      (strChars "defineWorkflow").isPrefixOf l &&
        (match (l.drop 14).dropWhile isWs with
         | d :: _ => d = '('
         | [] => false)) c

/-- `EXPORT_DEFAULT`, regex `export\s+default`. -/
def exportDefaultMatch (c : List Char) : Bool :=
  existsSuffix
    (fun l =>
      (strChars "export").isPrefixOf l &&
        (let r := l.drop 6
         (match r with
          | d :: _ => isWs d
          | [] => false) &&
           (strChars "default").isPrefixOf (r.dropWhile isWs))) c

/-- Quoted capture `['"`]([^'"`]+)['"`]`, anchored at the current position:
an opening quote, a nonempty maximal run of non-quote characters (the
greedy `[^'"`]+` must be followed by the closing-quote class), a closing
quote.  Returns the capture and the remainder after the closing quote. -/
def quotedCapture (l : List Char) : Option (List Char × List Char) :=
  match l with
  | q :: rest =>
    if isQuote q then
      let body := rest.takeWhile (fun d => !isQuote d)
      if body.isEmpty then none
      else
        match rest.drop body.length with
        | d :: after => if isQuote d then some (body, after) else none
        | [] => none
    else none
  | [] => none

/-- Keyword, then `\s*`, then a quoted capture, anchored at the current
position (the common shape of `WORKFLOW_NAME` and `SERVICE_NAMES`). -/
def kvQuotedAt (kw : List Char) (l : List Char) : Option (List Char × List Char) :=
  if kw.isPrefixOf l then quotedCapture ((l.drop kw.length).dropWhile isWs) else none

/-- `WORKFLOW_NAME`, regex `name:\s*['"`]([^'"`]+)['"`]`, first capture. -/
def workflowNameCapture (c : List Char) : Option (List Char) :=
  (firstSome (kvQuotedAt (strChars "name:")) c).map (fun x => x.1)

/-- Try literal alternatives in order; the chosen one must be followed by a
closing quote.  Models an alternation such as
`(integration|ai-enhanced|ai-native)` followed by the closing-quote class. -/
def tryAltsQuoted (alts : List (List Char)) (rest : List Char) :
    Option (List Char × List Char) :=
  match alts with
  | [] => none
  | a :: more =>
    if a.isPrefixOf rest then
      match rest.drop a.length with
      | d :: after =>
        if isQuote d then some (a, after) else tryAltsQuoted more rest
      | [] => tryAltsQuoted more rest
    else tryAltsQuoted more rest

/-- `WORKFLOW_TYPE`, regex
`type:\s*['"`](integration|ai-enhanced|ai-native)['"`]`, first capture. -/
def workflowTypeCapture (c : List Char) : Option (List Char) :=
  firstSome
    (fun l =>
      if (strChars "type:").isPrefixOf l then
        match (l.drop 5).dropWhile isWs with
        | q :: rest =>
          if isQuote q then
            (tryAltsQuoted
              [strChars "integration", strChars "ai-enhanced", strChars "ai-native"]
              rest).map (fun x => x.1)
          else none
        | [] => none
      else none) c

/-- `HAS_EXECUTE`, regex `execute\s*[:(]|async\s+execute`. -/
def hasExecuteMatch (c : List Char) : Bool :=
  existsSuffix
    (fun l =>
      ((strChars "execute").isPrefixOf l &&
        (match (l.drop 7).dropWhile isWs with
         | d :: _ => d = ':' || d = '('
         | [] => false)) ||
      ((strChars "async").isPrefixOf l &&
        (let r := l.drop 5
         (match r with
          | d :: _ => isWs d
          | [] => false) &&
           (strChars "execute").isPrefixOf (r.dropWhile isWs)))) c

/-- `HAS_RUN`, regex `run\s*[:(]|async\s+run`. -/
def hasRunMatch (c : List Char) : Bool :=
  existsSuffix
    (fun l =>
      ((strChars "run").isPrefixOf l &&
        (match (l.drop 3).dropWhile isWs with
         | d :: _ => d = ':' || d = '('
         | [] => false)) ||
      ((strChars "async").isPrefixOf l &&
        (let r := l.drop 5
         (match r with
          | d :: _ => isWs d
          | [] => false) &&
           (strChars "run").isPrefixOf (r.dropWhile isWs)))) c

/-- `EXECUTE_BODY`, regex
`(?s)execute\s*\([^)]*\)\s*\{([^}]+(?:\{[^}]*\}[^}]*)*)\}`, first capture.
Under leftmost-first (greedy) semantics the leading `[^}]+` extends to the
first `}` after the opening brace; the starred group then sees that `}` and
iterates zero times, so the capture is exactly the nonempty run up to the
first `}`, which must exist. -/
def executeBodyAt (l : List Char) : Option (List Char) :=
  if (strChars "execute").isPrefixOf l then
    match (l.drop 7).dropWhile isWs with
    | p :: r =>
      if p = '(' then
        let args := r.takeWhile (fun d => decide (d ≠ ')'))
        match r.drop args.length with
        | d :: after =>
          if d = ')' then
            match after.dropWhile isWs with
            | b :: t =>
              if b = lbC then
                let body := t.takeWhile (fun d => decide (d ≠ rbC))
                if !body.isEmpty && !(t.drop body.length).isEmpty then some body
                else none
              else none
            | [] => none
          else none
        | [] => none
      else none
    | [] => none
  else none

/-- First `EXECUTE_BODY` capture in the text. -/
def executeBodyCapture (c : List Char) : Option (List Char) :=
  firstSome executeBodyAt c

/-!  ## Integration patterns -/

/-- `INTEGRATIONS_BLOCK`, regex `(?s)integrations:\s*\[([\s\S]*?)\]`, first
capture: the keyword, optional whitespace, `[`, then the lazy `([\s\S]*?)`
stops at the first `]`, which must exist. -/
def integrationsBlockCapture (c : List Char) : Option (List Char) :=
  firstSome
    (fun l =>
      if (strChars "integrations:").isPrefixOf l then
        match (l.drop 13).dropWhile isWs with
        | b :: t =>
          if b = '[' then
            let body := t.takeWhile (fun d => decide (d ≠ ']'))
            if !(t.drop body.length).isEmpty then some body else none
          else none
        | [] => none
      else none) c

/-- `SERVICE_NAMES`, regex `service:\s*['"`]([^'"`]+)['"`]`, all captures. -/
def serviceCaptures (block : List Char) : List (List Char) :=
  scanAll (kvQuotedAt (strChars "service:")) (block.length + 1) block

/-- `SHORTHAND_INTEGRATIONS`, regex `['"`]([a-z-]+)['"`]`, all captures: a
quote, a nonempty maximal run of `[a-z-]`, a closing quote. -/
def shorthandCaptures (block : List Char) : List (List Char) :=
  scanAll
    (fun l =>
      match l with
      | q :: rest =>
        if isQuote q then
          let body := rest.takeWhile (fun d => ('a' ≤ d && d ≤ 'z') || d = '-')
          if body.isEmpty then none
          else
            match rest.drop body.length with
            | d :: after => if isQuote d then some (body, after) else none
            | [] => none
        else none
      | [] => none)
    (block.length + 1) block

/-!  ## Trigger patterns -/

/-- `HAS_TRIGGER`, regex `trigger:\s*` — as the trailing `\s*` may match the
empty string, `is_match` holds exactly when the text contains `trigger:`. -/
def hasTriggerMatch (c : List Char) : Bool := containsSeq (strChars "trigger:") c

/-- Try the alternatives of `TRIGGER_TYPE` in order; the chosen keyword must
be followed by `\s*\(`. -/
def tryAltsParen (alts : List (List Char)) (r : List Char) : Option (List Char) :=
  match alts with
  | [] => none
  | a :: more =>
    if a.isPrefixOf r &&
        (match (r.drop a.length).dropWhile isWs with
         | d :: _ => d = '('
         | [] => false) then
      some a
    else tryAltsParen more r

/-- `TRIGGER_TYPE`, regex `trigger:\s*(webhook|schedule|manual|poll)\s*\(`,
first capture. -/
def triggerTypeCapture (c : List Char) : Option (List Char) :=
  firstSome
    (fun l =>
      if (strChars "trigger:").isPrefixOf l then
        tryAltsParen
          [strChars "webhook", strChars "schedule", strChars "manual", strChars "poll"]
          ((l.drop 8).dropWhile isWs)
      else none) c

/-- `TRIGGER_OBJECT_TYPE`, regex
`trigger:\s*\{\s*type:\s*['"`]([^'"`]+)['"`]`, first capture. -/
def triggerObjectTypeCapture (c : List Char) : Option (List Char) :=
  firstSome
    (fun l =>
      if (strChars "trigger:").isPrefixOf l then
        match (l.drop 8).dropWhile isWs with
        | b :: t =>
          if b = lbC then
            let r := t.dropWhile isWs
            if (strChars "type:").isPrefixOf r then
              (quotedCapture ((r.drop 5).dropWhile isWs)).map (fun x => x.1)
            else none
          else none
        | [] => none
      else none) c

/-- `WEBHOOK_CONFIG`, regex `webhook\s*\(\s*\{([^}]+)\}`, first capture. -/
def webhookConfigCapture (c : List Char) : Option (List Char) :=
  firstSome
    (fun l =>
      if (strChars "webhook").isPrefixOf l then
        match (l.drop 7).dropWhile isWs with
        | p :: r =>
          if p = '(' then
            match r.dropWhile isWs with
            | b :: t =>
              if b = lbC then
                let body := t.takeWhile (fun d => decide (d ≠ rbC))
                if !body.isEmpty && !(t.drop body.length).isEmpty then some body
                else none
              else none
            | [] => none
          else none
        | [] => none
      else none) c

/-- `SCHEDULE_EXPR`, regex `schedule\s*\(\s*['"`]([^'"`]+)['"`]`, first
capture. -/
def scheduleExprCapture (c : List Char) : Option (List Char) :=
  firstSome
    (fun l =>
      if (strChars "schedule").isPrefixOf l then
        match (l.drop 8).dropWhile isWs with
        | p :: r =>
          if p = '(' then (quotedCapture (r.dropWhile isWs)).map (fun x => x.1)
          else none
        | [] => none
      else none) c

/-!  ## Pricing patterns -/

/-- `HAS_PRICING`, regex `pricing:\s*\{`. -/
def hasPricingMatch (c : List Char) : Bool :=
  existsSuffix
    (fun l =>
      (strChars "pricing:").isPrefixOf l &&
        (match (l.drop 8).dropWhile isWs with
         | d :: _ => d = lbC
         | [] => false)) c

/-- `PRICING_MODEL`, regex
`model:\s*['"`](subscription|usage|one-time)['"`]`, first capture. -/
def pricingModelCapture (c : List Char) : Option (List Char) :=
  firstSome
    (fun l =>
      if (strChars "model:").isPrefixOf l then
        match (l.drop 6).dropWhile isWs with
        | q :: rest =>
          if isQuote q then
            (tryAltsQuoted
              [strChars "subscription", strChars "usage", strChars "one-time"]
              rest).map (fun x => x.1)
          else none
        | [] => none
      else none) c

/-- `PRICING_PRICE`, regex `price:\s*(\d+(?:\.\d+)?)`, first capture: a
nonempty digit run, optionally extended by a dot and another nonempty digit
run. -/
def pricingPriceCapture (c : List Char) : Option (List Char) :=
  firstSome
    (fun l =>
      if (strChars "price:").isPrefixOf l then
        let r := (l.drop 6).dropWhile isWs
        let ds := r.takeWhile isDigitCh
        if ds.isEmpty then none
        else
          match r.drop ds.length with
          | '.' :: t =>
            let ds2 := t.takeWhile isDigitCh
            if ds2.isEmpty then some ds else some (ds ++ '.' :: ds2)
          | _ => some ds
      else none) c

/-- `HAS_EXECUTIONS`, regex `executions:\s*(\d+|'unlimited')`. -/
def hasExecutionsMatch (c : List Char) : Bool :=
  existsSuffix
    (fun l =>
      (strChars "executions:").isPrefixOf l &&
        (let r := (l.drop 11).dropWhile isWs
         (match r with
          | d :: _ => isDigitCh d
          | [] => false) ||
           (sqC :: strChars "unlimited" ++ [sqC]).isPrefixOf r)) c

/-!  ## AI validation patterns -/

/-- `EXTERNAL_AI`, regex `(?i)claude|gpt-4|openai|anthropic|gemini`. -/
def externalAiMatch (c : List Char) : Bool :=
  let lc := c.map asciiLower
  containsSeq (strChars "claude") lc || containsSeq (strChars "gpt-4") lc ||
    containsSeq (strChars "openai") lc || containsSeq (strChars "anthropic") lc ||
      containsSeq (strChars "gemini") lc

/-- `ENV_ACCESS`, regex `env\s*[,})]|context\.env|\{ env \}`. -/
def envAccessMatch (c : List Char) : Bool :=
  existsSuffix
    (fun l =>
      (strChars "env").isPrefixOf l &&
        (match (l.drop 3).dropWhile isWs with
         | d :: _ => d = ',' || d = rbC || d = ')'
         | [] => false)) c ||
    containsSeq (strChars "context.env") c ||
      containsSeq (strChars "\x7b env \x7d") c

/-!  ## Common mistake patterns -/

/-- `CONSOLE_STATEMENTS` counting, regex `console\.(log|error|warn)` with
`find_iter(..).count()`: scan left to right, skipping past each match. -/
def consoleCountAux : Nat → List Char → Nat
  | 0, _ => 0
  | _ + 1, [] => 0
  | fuel + 1, c :: t =>
    if (strChars "console.log").isPrefixOf (c :: t) then
      1 + consoleCountAux fuel ((c :: t).drop 11)
    else if (strChars "console.error").isPrefixOf (c :: t) then
      1 + consoleCountAux fuel ((c :: t).drop 13)
    else if (strChars "console.warn").isPrefixOf (c :: t) then
      1 + consoleCountAux fuel ((c :: t).drop 12)
    else consoleCountAux fuel t

/-- Number of `console.log`/`console.error`/`console.warn` occurrences. -/
def consoleCount (c : List Char) : Nat := consoleCountAux (c.length + 1) c

/-- `AWAIT_IN_FOR_LOOP` / `AWAIT_IN_WHILE_LOOP`, regex
`(?s)KW\s*\([^)]+\)\s*\{[^}]*await[^}]*\}`: the loop keyword, a
parenthesized nonempty condition (up to the first `)`), an opening brace,
and an occurrence of `await` before the first following `}`, which must
exist. -/
def loopAwaitMatch (kw : List Char) (c : List Char) : Bool :=
  existsSuffix
    (fun l =>
      kw.isPrefixOf l &&
        (match (l.drop kw.length).dropWhile isWs with
         | p :: r =>
           p = '(' &&
             (let inner := r.takeWhile (fun d => decide (d ≠ ')'))
              !inner.isEmpty &&
                (match r.drop inner.length with
                 | d :: after =>
                   d = ')' &&
                     (match after.dropWhile isWs with
                      | b :: t =>
                        b = lbC &&
                          (let body := t.takeWhile (fun d => decide (d ≠ rbC))
                           containsSeq (strChars "await") body &&
                             !(t.drop body.length).isEmpty)
                      | [] => false)
                 | [] => false))
         | [] => false)) c

/-- `EMPTY_CATCH`, regex `(?s)catch\s*\([^)]*\)\s*\{\s*\}`. -/
def emptyCatchMatch (c : List Char) : Bool :=
  existsSuffix
    (fun l =>
      (strChars "catch").isPrefixOf l &&
        (match (l.drop 5).dropWhile isWs with
         | p :: r =>
           p = '(' &&
             (let inner := r.takeWhile (fun d => decide (d ≠ ')'))
              match r.drop inner.length with
              | d :: after =>
                d = ')' &&
                  (match after.dropWhile isWs with
                   | b :: t =>
                     b = lbC &&
                       (match t.dropWhile isWs with
                        | e :: _ => e = rbC
                        | [] => false)
                   | [] => false)
              | [] => false)
         | [] => false)) c

/-!  ## Secret detection patterns -/

/-- Common tail `\s*[:=]\s*['"`][^'"`]{n,}['"`]` of the secret patterns:
optional whitespace, a colon or equals sign, optional whitespace, a quote,
at least `minLen` non-quote characters (the greedy run must then be closed
by a quote). -/
def secretTailMatch (minLen : Nat) (l : List Char) : Bool :=
  match l.dropWhile isWs with
  | c :: r =>
    (c = ':' || c = '=') &&
      (match r.dropWhile isWs with
       | q :: rest =>
         isQuote q &&
           (let body := rest.takeWhile (fun d => !isQuote d)
            decide (minLen ≤ body.length) &&
              (match rest.drop body.length with
               | d :: _ => isQuote d
               | [] => false))
       | [] => false)
  | [] => false

/-- Generic secret matcher `(?i)kw\s*[:=]\s*['"`][^'"`]{minLen,}['"`]`:
case-insensitivity is modelled by lowercasing the text (quotes, separators
and lengths are unaffected). -/
def secretKindMatch (kw : List Char) (minLen : Nat) (c : List Char) : Bool :=
  let lc := c.map asciiLower
  existsSuffix (fun l => kw.isPrefixOf l && secretTailMatch minLen (l.drop kw.length)) lc

/-- `SECRET_API_KEY`, regex `(?i)api[_-]?key\s*[:=]\s*['"`][^'"`]{20,}['"`]`:
`api`, an optional underscore or dash, `key`, then the secret tail. -/
def secretApiKeyMatch (c : List Char) : Bool :=
  let lc := c.map asciiLower
  existsSuffix
    (fun l =>
      (strChars "api").isPrefixOf l &&
        (let r := l.drop 3
         ((strChars "key").isPrefixOf r && secretTailMatch 20 (r.drop 3)) ||
           (match r with
            | s :: r2 =>
              (s = '_' || s = '-') && (strChars "key").isPrefixOf r2 &&
                secretTailMatch 20 (r2.drop 3)
            | [] => false))) lc

/-- `SECRET_SECRET`, regex `(?i)secret\s*[:=]\s*['"`][^'"`]{20,}['"`]`. -/
def secretSecretMatch (c : List Char) : Bool :=
  secretKindMatch (strChars "secret") 20 c

/-- `SECRET_PASSWORD`, regex `(?i)password\s*[:=]\s*['"`][^'"`]+['"`]`. -/
def secretPasswordMatch (c : List Char) : Bool :=
  secretKindMatch (strChars "password") 1 c

/-- `SECRET_TOKEN`, regex `(?i)token\s*[:=]\s*['"`][^'"`]{20,}['"`]`. -/
def secretTokenMatch (c : List Char) : Bool :=
  secretKindMatch (strChars "token") 20 c

/-!  ## Blocked module patterns -/

/-- Quoted literal `['"`]md['"`]` anchored at the current position. -/
def quotedLit (md : List Char) (l : List Char) : Bool :=
  match l with
  | q :: rest =>
    isQuote q && md.isPrefixOf rest &&
      (match rest.drop md.length with
       | d :: _ => isQuote d
       | [] => false)
  | [] => false

/-- `from\s+['"`]md['"`]` anchored at the current position. -/
def fromKw (md : List Char) (l : List Char) : Bool :=
  (strChars "from").isPrefixOf l &&
    (let r := l.drop 4
     (match r with
      | d :: _ => isWs d
      | [] => false) && quotedLit md (r.dropWhile isWs))

/-- Scan for the `.*from\s+['"`]md['"`]` part of the import alternative: the
`from` keyword may appear after any number of non-newline characters (the
regex `.` does not match `\n`). -/
def impLineScan (md : List Char) : List Char → Bool
  | [] => false
  | c :: t => fromKw md (c :: t) || (decide (c ≠ '\n') && impLineScan md t)

/-- Scan for the `\s+` part of the import alternative: at least one
whitespace character, after which the non-newline scan may start at any
point of the whitespace run. -/
def impWsScan (md : List Char) : List Char → Bool
  | [] => false
  | c :: t => isWs c && (impLineScan md t || impWsScan md t)

/-- Import alternative `import\s+.*from\s+['"`]md['"`]` anchored at the
current position. -/
def importMatchAt (md : List Char) (l : List Char) : Bool :=
  (strChars "import").isPrefixOf l && impWsScan md (l.drop 6)

/-- Require alternative `require\s*\(\s*['"`]md['"`]\s*\)` anchored at the
current position. -/
def requireMatchAt (md : List Char) (l : List Char) : Bool :=
  (strChars "require").isPrefixOf l &&
    (match (l.drop 7).dropWhile isWs with
     | p :: r =>
       p = '(' &&
         (match r.dropWhile isWs with
          | q :: rest =>
            isQuote q && md.isPrefixOf rest &&
              (match rest.drop md.length with
               | d :: after =>
                 isQuote d &&
                   (match after.dropWhile isWs with
                    | e :: _ => e = ')'
                    | [] => false)
               | [] => false)
          | [] => false)
     | [] => false)

/-- `blocked_module_pattern(md)`, regex
`(import\s+.*from\s+['"`]md['"`])|(require\s*\(\s*['"`]md['"`]\s*\))`
(the module name is inserted literally via `regex::escape`). -/
def blockedModuleMatch (md : List Char) (c : List Char) : Bool :=
  existsSuffix (fun l => importMatchAt md l) c ||
    existsSuffix (fun l => requireMatchAt md l) c

/-- `BLOCKED_NODE_MODULES` (`patterns.rs`). -/
def BLOCKED_NODE_MODULES : List String :=
  ["fs", "path", "child_process", "os", "net", "http", "https",
   "stream", "buffer", "crypto", "util", "events", "cluster",
   "dns", "readline", "tty", "vm", "zlib", "worker_threads",
   "perf_hooks", "async_hooks"]

/-- `BLOCKED_NPM_PACKAGES` (`patterns.rs`). -/
def BLOCKED_NPM_PACKAGES : List String :=
  ["axios", "request", "node-fetch", "express", "bcrypt",
   "sharp", "puppeteer", "mongoose", "pg", "mysql", "redis"]

/-- `KNOWN_INTEGRATIONS` (`patterns.rs`). -/
def KNOWN_INTEGRATIONS : List String :=
  ["gmail", "slack", "notion", "stripe", "github", "salesforce",
   "airtable", "zendesk", "hubspot", "linear", "discord", "telegram",
   "sendgrid", "resend", "mailchimp", "paypal", "square", "pipedrive",
   "gitlab", "google-workspace", "google-calendar", "google-drive",
   "google-sheets"]

/-!  ## Data model (`validator.rs`) -/

/-- `ValidationError`: severity tag, stable code, message, optional line
(never set by the current code) and optional suggestion. -/
structure ValidationError where
  error_type : String
  code : String
  message : String
  line : Option Nat
  suggestion : Option String
deriving Repr, DecidableEq

/-- `ValidationError::new`. -/
def ValidationError.new (code message : String) : ValidationError :=
  { error_type := "error", code := code, message := message,
    line := none, suggestion := none }

/-- `ValidationError::with_suggestion`. -/
def ValidationError.with_suggestion (e : ValidationError) (s : String) :
    ValidationError :=
  { e with suggestion := some s }

/-- `ValidationWarning`, structurally separate from `ValidationError` as in
the source. -/
structure ValidationWarning where
  warning_type : String
  code : String
  message : String
  line : Option Nat
  suggestion : Option String
deriving Repr, DecidableEq

/-- `ValidationWarning::new`. -/
def ValidationWarning.new (code message : String) : ValidationWarning :=
  { warning_type := "warning", code := code, message := message,
    line := none, suggestion := none }

/-- `ValidationWarning::with_suggestion`. -/
def ValidationWarning.with_suggestion (w : ValidationWarning) (s : String) :
    ValidationWarning :=
  { w with suggestion := some s }

/-- `PricingMetadata`.  The `price` field holds the text captured by
`PRICING_PRICE` (always of the shape digits or digits.digits); the source
stores its `f64` value, whose floating-point representation is not needed
by any statement below. -/
structure PricingMetadata where
  model : Option String
  price : Option String
deriving Repr, DecidableEq

/-- `WorkflowMetadata` with its `Default` of all-absent fields. -/
structure WorkflowMetadata where
  name : Option String
  workflow_type : Option String
  integrations : Option (List String)
  trigger : Option String
  has_ai : Option Bool
  pricing : Option PricingMetadata
deriving Repr, DecidableEq

/-- `WorkflowMetadata::default()`. -/
def emptyMetadata : WorkflowMetadata :=
  { name := none, workflow_type := none, integrations := none,
    trigger := none, has_ai := none, pricing := none }

/-- `ValidationResult`. -/
structure ValidationResult where
  valid : Bool
  errors : List ValidationError
  warnings : List ValidationWarning
  metadata : Option WorkflowMetadata
deriving Repr, DecidableEq

/-- `get_node_module_suggestion` (`validator.rs`). -/
def get_node_module_suggestion (module : String) : String :=
  if module = "fs" then "Cloudflare Workers have no filesystem. Store data in KV or R2."
  else if module = "path" then "Use string manipulation or URL API instead."
  else if module = "child_process" then "Workers cannot spawn processes. Use external services."
  else if module = "crypto" then "Use Web Crypto API: crypto.subtle.digest(), crypto.randomUUID()"
  else if module = "http" || module = "https" then "Use native fetch() instead."
  else if module = "buffer" then "Use ArrayBuffer/Uint8Array instead."
  else if module = "stream" then "Use Web Streams API (ReadableStream, WritableStream)."
  else "See docs/WORKERS_RUNTIME_GUIDE.md for alternatives."

/-- `get_npm_package_suggestion` (`validator.rs`). -/
def get_npm_package_suggestion (package : String) : String :=
  if package = "axios" then "Use native fetch() - it works identically in Workers."
  else if package = "request" then "Use native fetch() - request is deprecated anyway."
  else if package = "node-fetch" then "Native fetch() is available - no polyfill needed."
  else if package = "express" then "Workers use event-driven model, not HTTP servers."
  else if package = "bcrypt" then "Use bcryptjs (pure JS) or Web Crypto API."
  else if package = "sharp" then "Use Cloudflare Images for image processing."
  else if package = "puppeteer" then "Use an external browser service or Cloudflare Browser Rendering."
  else if package = "mongoose" then "Use Cloudflare D1 (SQLite) or external API."
  else if package = "pg" then "Use Cloudflare D1 or Hyperdrive for PostgreSQL."
  else if package = "mysql" then "Use Cloudflare D1 or Hyperdrive."
  else if package = "redis" then "Use Cloudflare KV for key-value storage."
  else "See docs/WORKERS_RUNTIME_GUIDE.md for alternatives."

/-!  ## Validation engine: the eight check groups (`validator.rs`).

Each group is modelled as a function from the text (and, where the source
takes it, the metadata accumulated so far) to the errors and warnings it
pushes, in push order, together with the updated metadata. -/

/-- `validate_imports`. -/
def validate_imports (c : List Char) (m : WorkflowMetadata) :
    List ValidationError × List ValidationWarning × WorkflowMetadata :=
  let errs1 :=
    if !sdkImportMatch c then
      [(ValidationError.new "MISSING_SDK_IMPORT" "Workflow must import from @workway/sdk").with_suggestion
        "Add: import \x7b defineWorkflow \x7d from '@workway/sdk'"]
    else []
  let has_ai_usage := aiUsageMatch c
  let warns1 :=
    if has_ai_usage && !workersAiImportMatch c then
      [(ValidationWarning.new "MISSING_AI_IMPORT" "AI usage detected but no workers-ai import found").with_suggestion
        "Add: import \x7b createAIClient, AIModels \x7d from '@workway/sdk/workers-ai'"]
    else []
  let errs2 := BLOCKED_NODE_MODULES.filterMap fun md =>
    if blockedModuleMatch (strChars md) c then
      some ((ValidationError.new "BLOCKED_NODE_MODULE"
          ("Node.js module '" ++ md ++ "' is not available in Cloudflare Workers")).with_suggestion
        (get_node_module_suggestion md))
    else none
  let warns2 := BLOCKED_NPM_PACKAGES.filterMap fun pk =>
    if blockedModuleMatch (strChars pk) c then
      some ((ValidationWarning.new "INCOMPATIBLE_NPM_PACKAGE"
          ("npm package '" ++ pk ++ "' is incompatible with Cloudflare Workers")).with_suggestion
        (get_npm_package_suggestion pk))
    else none
  (errs1 ++ errs2, warns1 ++ warns2, { m with has_ai := some has_ai_usage })

/-- `validate_workflow_definition`. -/
def validate_workflow_definition (c : List Char) (m : WorkflowMetadata) :
    List ValidationError × List ValidationWarning × WorkflowMetadata :=
  let errs :=
    if !defineWorkflowMatch c && !exportDefaultMatch c then
      [(ValidationError.new "NO_WORKFLOW_EXPORT" "Workflow must use defineWorkflow() or export default").with_suggestion
        "Wrap your workflow in defineWorkflow(\x7b ... \x7d)"]
    else []
  let step1 :=
    match workflowNameCapture c with
    | some nm => (([] : List ValidationWarning), { m with name := some (String.mk nm) })
    | none =>
      ([(ValidationWarning.new "MISSING_NAME" "Workflow should have a name property").with_suggestion
          "Add: name: 'My Workflow'"], m)
  let m2 :=
    match workflowTypeCapture c with
    | some t => { step1.2 with workflow_type := some (String.mk t) }
    | none => step1.2
  (errs, step1.1, m2)

/-- `validate_execute_function` (takes no metadata in the source). -/
def validate_execute_function (c : List Char) :
    List ValidationError × List ValidationWarning :=
  let errs :=
    if !hasExecuteMatch c && !hasRunMatch c then
      [(ValidationError.new "MISSING_EXECUTE" "Workflow must have an execute or run function").with_suggestion
        "Add: async execute(\x7b trigger, actions \x7d) \x7b ... \x7d"]
    else []
  let warns :=
    match executeBodyCapture c with
    | some body =>
      if !containsSeq (strChars "return") body then
        [(ValidationWarning.new "NO_RETURN" "Execute function should return a result").with_suggestion
          "Add: return \x7b success: true, data: ... \x7d"]
      else []
    | none => []
  (errs, warns)

/-- Collection loop of `validate_integrations`: lowercased `service:`
captures in order (no deduplication), then lowercased shorthand captures
appended only when they are known integrations not already collected. -/
def collectIntegrations (block : List Char) : List String :=
  let svc := (serviceCaptures block).map fun nm => String.mk (nm.map asciiLower)
  (shorthandCaptures block).foldl
    (fun acc nm =>
      let nl := String.mk (nm.map asciiLower)
      if KNOWN_INTEGRATIONS.contains nl && !acc.contains nl then acc ++ [nl] else acc)
    svc

/-- `validate_integrations` (pushes no errors). -/
def validate_integrations (c : List Char) (m : WorkflowMetadata) :
    List ValidationError × List ValidationWarning × WorkflowMetadata :=
  match integrationsBlockCapture c with
  | none => ([], [], m)
  | some block =>
    let ints := collectIntegrations block
    let warns1 := ints.filterMap fun i =>
      if !KNOWN_INTEGRATIONS.contains i then
        some ((ValidationWarning.new "UNKNOWN_INTEGRATION" ("Unknown integration: " ++ i)).with_suggestion
          ("Valid integrations: " ++ String.intercalate ", " (KNOWN_INTEGRATIONS.take 5) ++ "..."))
      else none
    let warns2 :=
      if !ints.isEmpty && !containsSeq (strChars "scopes") block then
        [(ValidationWarning.new "MISSING_SCOPES" "Integrations should specify required scopes").with_suggestion
          "Add: scopes: ['read_data', 'write_data']"]
      else []
    let m1 := if !ints.isEmpty then { m with integrations := some ints } else m
    ([], warns1 ++ warns2, m1)

/-- `validate_trigger`. -/
def validate_trigger (c : List Char) (m : WorkflowMetadata) :
    List ValidationError × List ValidationWarning × WorkflowMetadata :=
  if !hasTriggerMatch c then
    ([(ValidationError.new "MISSING_TRIGGER" "Workflow must define a trigger").with_suggestion
        "Add: trigger: webhook(\x7b service: 'stripe', event: 'payment.succeeded' \x7d)"],
     [], m)
  else
    let m1 :=
      match triggerTypeCapture c with
      | some t => { m with trigger := some (String.mk t) }
      | none =>
        match triggerObjectTypeCapture c with
        | some t => { m with trigger := some (String.mk t) }
        | none => m
    let warns :=
      if containsSeq (strChars "webhook(") c then
        match webhookConfigCapture c with
        | some cfg =>
          if !containsSeq (strChars "service") cfg && !containsSeq (strChars "event") cfg then
            [(ValidationWarning.new "INCOMPLETE_WEBHOOK" "Webhook trigger should specify service and event").with_suggestion
              "Add: service: 'stripe', event: 'payment.succeeded'"]
          else []
        | none => []
      else []
    let errs :=
      if containsSeq (strChars "schedule(") c then
        match scheduleExprCapture c with
        | some ex =>
          if !is_valid_cron (String.mk ex) then
            [(ValidationError.new "INVALID_CRON" ("Invalid cron expression: " ++ String.mk ex)).with_suggestion
              "Use format: '0 8 * * *' (minute hour day month weekday)"]
          else []
        | none => []
      else []
    (errs, warns, m1)

/-- `validate_pricing` (pushes no errors). -/
def validate_pricing (c : List Char) (m : WorkflowMetadata) :
    List ValidationError × List ValidationWarning × WorkflowMetadata :=
  if !hasPricingMatch c then
    ([],
     [(ValidationWarning.new "MISSING_PRICING" "Workflow should define pricing for marketplace").with_suggestion
        "Add: pricing: \x7b model: 'subscription', price: 10, executions: 100 \x7d"],
     m)
  else
    let model := (pricingModelCapture c).map String.mk
    let price := (pricingPriceCapture c).map String.mk
    let warns :=
      if model = some "subscription" && !hasExecutionsMatch c then
        [(ValidationWarning.new "MISSING_EXECUTIONS" "Subscription pricing should specify executions limit").with_suggestion
          "Add: executions: 100"]
      else []
    ([], warns, { m with pricing := some { model := model, price := price } })

/-- `validate_ai_usage` (pushes no errors, never changes the metadata). -/
def validate_ai_usage (c : List Char) (m : WorkflowMetadata) :
    List ValidationError × List ValidationWarning × WorkflowMetadata :=
  let warns1 :=
    if externalAiMatch c then
      [(ValidationWarning.new "EXTERNAL_AI_DETECTED" "External AI providers detected. WORKWAY uses Cloudflare Workers AI only.").with_suggestion
        "Use: createAIClient(env) with AIModels.LLAMA_3_8B or AIModels.MISTRAL_7B"]
    else []
  let warns2 :=
    if m.has_ai = some true && !envAccessMatch c then
      [(ValidationWarning.new "MISSING_ENV_ACCESS" "AI usage requires env parameter in execute function").with_suggestion
        "Update: async execute(\x7b trigger, actions, env \x7d) \x7b ... \x7d"]
    else []
  ([], warns1 ++ warns2, m)

/-- `validate_common_mistakes` (takes no metadata in the source). -/
def validate_common_mistakes (c : List Char) :
    List ValidationError × List ValidationWarning :=
  let console_count := consoleCount c
  let warns1 :=
    if console_count > 3 then
      [(ValidationWarning.new "EXCESSIVE_LOGGING"
          ("Found " ++ toString console_count ++ " console statements")).with_suggestion
        "Consider reducing logging in production builds"]
    else []
  let errs :=
    if secretApiKeyMatch c || secretSecretMatch c || secretPasswordMatch c || secretTokenMatch c then
      [(ValidationError.new "HARDCODED_SECRET" "Possible hardcoded secret detected").with_suggestion
        "Use environment variables or secrets manager instead"]
    else []
  let warns2 :=
    if loopAwaitMatch (strChars "for") c || loopAwaitMatch (strChars "while") c then
      [(ValidationWarning.new "AWAIT_IN_LOOP" "Await inside loop detected (may affect performance)").with_suggestion
        "Consider using Promise.all() for parallel execution"]
    else []
  let warns3 :=
    if emptyCatchMatch c then
      [(ValidationWarning.new "EMPTY_CATCH" "Empty catch block detected").with_suggestion
        "Handle or re-throw errors properly"]
    else []
  (errs, warns1 ++ warns2 ++ warns3)

/-- Metadata after group 1 (`validate_imports`), starting from the
`Default` metadata of `validate_workflow`. -/
def wfMeta1 (c : List Char) : WorkflowMetadata :=
  (validate_imports c emptyMetadata).2.2

/-- Metadata after group 2 (`validate_workflow_definition`). -/
def wfMeta2 (c : List Char) : WorkflowMetadata :=
  (validate_workflow_definition c (wfMeta1 c)).2.2

/-- Metadata after group 4 (`validate_integrations`; group 3 does not take
the metadata). -/
def wfMeta4 (c : List Char) : WorkflowMetadata :=
  (validate_integrations c (wfMeta2 c)).2.2

/-- Metadata after group 5 (`validate_trigger`). -/
def wfMeta5 (c : List Char) : WorkflowMetadata :=
  (validate_trigger c (wfMeta4 c)).2.2

/-- Metadata after group 6 (`validate_pricing`). -/
def wfMeta6 (c : List Char) : WorkflowMetadata :=
  (validate_pricing c (wfMeta5 c)).2.2

/-- Metadata after group 7 (`validate_ai_usage`; group 8 does not take the
metadata), the final metadata of the run. -/
def wfMeta7 (c : List Char) : WorkflowMetadata :=
  (validate_ai_usage c (wfMeta6 c)).2.2

/-- The error list accumulated by the eight check groups, in group order
(push order within each group). -/
def wfErrors (c : List Char) : List ValidationError :=
  (validate_imports c emptyMetadata).1 ++
    (validate_workflow_definition c (wfMeta1 c)).1 ++
      (validate_execute_function c).1 ++
        (validate_integrations c (wfMeta2 c)).1 ++
          (validate_trigger c (wfMeta4 c)).1 ++
            (validate_pricing c (wfMeta5 c)).1 ++
              (validate_ai_usage c (wfMeta6 c)).1 ++
                (validate_common_mistakes c).1

/-- The warning list accumulated by the eight check groups, in group order
(push order within each group). -/
def wfWarnings (c : List Char) : List ValidationWarning :=
  (validate_imports c emptyMetadata).2.1 ++
    (validate_workflow_definition c (wfMeta1 c)).2.1 ++
      (validate_execute_function c).2 ++
        (validate_integrations c (wfMeta2 c)).2.1 ++
          (validate_trigger c (wfMeta4 c)).2.1 ++
            (validate_pricing c (wfMeta5 c)).2.1 ++
              (validate_ai_usage c (wfMeta6 c)).2.1 ++
                (validate_common_mistakes c).2

/-- `validate_workflow`: run the eight check groups in order on the text,
thread the metadata through the groups that take it, concatenate the pushed
errors and warnings in group order, and derive `valid` from emptiness of
the error list. -/
def validate_workflow (content : String) : ValidationResult :=
  { valid := (wfErrors content.data).isEmpty,
    errors := wfErrors content.data,
    warnings := wfWarnings content.data,
    metadata := some (wfMeta7 content.data) }

/-- Trigger metadata of a result (helper accessor). -/
def resultTrigger (r : ValidationResult) : Option String :=
  match r.metadata with
  | some m => m.trigger
  | none => none

/-- Integrations metadata of a result (helper accessor). -/
def resultIntegrations (r : ValidationResult) : Option (List String) :=
  match r.metadata with
  | some m => m.integrations
  | none => none

/-- The numbers appearing anywhere in a cron field of range/list shape: the
comma-separated segments, each further split at dashes (this is exactly how
`is_valid_cron` enumerates the numbers it bounds-checks). -/
def cronFieldNumbers (l : List Char) : List (List Char) :=
  (splitOnChar ',' l).flatMap (splitOnChar '-')

theorem bool_eq_of_iff {a b : Bool} (h : a = true ↔ b = true) : a = b := by
  cases a <;> cases b <;> simp_all

@[simp]
theorem ValidationError.code_new (code msg : String) :
    (ValidationError.new code msg).code = code := rfl

@[simp]
theorem ValidationError.code_with (e : ValidationError) (s : String) :
    (e.with_suggestion s).code = e.code := rfl

@[simp]
theorem ValidationWarning.warn_code_new (code msg : String) :
    (ValidationWarning.new code msg).code = code := rfl

@[simp]
theorem ValidationWarning.warn_code_with (w : ValidationWarning) (s : String) :
    (w.with_suggestion s).code = w.code := rfl

@[simp]
theorem ValidationWarning.warn_message_new (code msg : String) :
    (ValidationWarning.new code msg).message = msg := rfl

@[simp]
theorem ValidationWarning.warn_message_with (w : ValidationWarning) (s : String) :
    (w.with_suggestion s).message = w.message := rfl

theorem validate_imports_err_codes (c : List Char) (m : WorkflowMetadata) :
    ∀ e ∈ (validate_imports c m).1,
      e.code = "MISSING_SDK_IMPORT" ∨ e.code = "BLOCKED_NODE_MODULE" := by
  intro e he
  simp only [validate_imports, List.mem_append] at he
  rcases he with he | he
  · left
    split at he <;> simp_all
  · right
    obtain ⟨a, -, ha⟩ := List.mem_filterMap.mp he
    split at ha <;> simp_all
    subst ha
    simp

theorem validate_imports_warn_codes (c : List Char) (m : WorkflowMetadata) :
    ∀ w ∈ (validate_imports c m).2.1,
      w.code = "MISSING_AI_IMPORT" ∨ w.code = "INCOMPATIBLE_NPM_PACKAGE" := by
  intro w hw
  simp only [validate_imports, List.mem_append] at hw
  rcases hw with hw | hw
  · left
    split at hw <;> simp_all
  · right
    obtain ⟨a, -, ha⟩ := List.mem_filterMap.mp hw
    split at ha <;> simp_all
    subst ha
    simp

theorem validate_workflow_definition_err_codes (c : List Char) (m : WorkflowMetadata) :
    ∀ e ∈ (validate_workflow_definition c m).1, e.code = "NO_WORKFLOW_EXPORT" := by
  intro e he
  simp only [validate_workflow_definition] at he
  split at he <;> simp_all

theorem validate_workflow_definition_warn_codes (c : List Char) (m : WorkflowMetadata) :
    ∀ w ∈ (validate_workflow_definition c m).2.1, w.code = "MISSING_NAME" := by
  intro w hw
  simp only [validate_workflow_definition] at hw
  split at hw <;> simp_all

theorem validate_execute_function_err_codes (c : List Char) :
    ∀ e ∈ (validate_execute_function c).1, e.code = "MISSING_EXECUTE" := by
  intro e he
  simp only [validate_execute_function] at he
  split at he <;> simp_all

theorem validate_execute_function_warn_codes (c : List Char) :
    ∀ w ∈ (validate_execute_function c).2, w.code = "NO_RETURN" := by
  intro w hw
  simp only [validate_execute_function] at hw
  split at hw <;> simp_all

theorem validate_integrations_no_errors (c : List Char) (m : WorkflowMetadata) :
    (validate_integrations c m).1 = [] := by
  simp only [validate_integrations]
  split <;> rfl

theorem validate_integrations_warn_codes (c : List Char) (m : WorkflowMetadata) :
    ∀ w ∈ (validate_integrations c m).2.1,
      w.code = "UNKNOWN_INTEGRATION" ∨ w.code = "MISSING_SCOPES" := by
  intro w hw
  simp only [validate_integrations] at hw
  split at hw
  · simp_all
  · simp only [List.mem_append] at hw
    rcases hw with hw | hw
    · left
      obtain ⟨a, -, ha⟩ := List.mem_filterMap.mp hw
      split at ha <;> simp_all
      subst ha
      simp
    · right
      split at hw <;> simp_all

theorem validate_trigger_err_codes (c : List Char) (m : WorkflowMetadata) :
    ∀ e ∈ (validate_trigger c m).1,
      e.code = "MISSING_TRIGGER" ∨ e.code = "INVALID_CRON" := by
  intro e he
  simp only [validate_trigger] at he
  split at he
  · simp_all
  · right
    split at he
    · split at he
      · split at he <;> simp_all
      · simp_all
    · simp_all

theorem validate_trigger_warn_codes (c : List Char) (m : WorkflowMetadata) :
    ∀ w ∈ (validate_trigger c m).2.1, w.code = "INCOMPLETE_WEBHOOK" := by
  intro w hw
  simp only [validate_trigger] at hw
  split at hw
  · simp_all
  · dsimp only at hw
    split at hw
    · split at hw
      · split at hw <;> simp_all
      · simp_all
    · simp_all

theorem validate_pricing_no_errors (c : List Char) (m : WorkflowMetadata) :
    (validate_pricing c m).1 = [] := by
  simp only [validate_pricing]
  split <;> rfl

theorem validate_pricing_warn_codes (c : List Char) (m : WorkflowMetadata) :
    ∀ w ∈ (validate_pricing c m).2.1,
      w.code = "MISSING_PRICING" ∨ w.code = "MISSING_EXECUTIONS" := by
  intro w hw
  simp only [validate_pricing] at hw
  split at hw
  · simp_all
  · right
    split at hw <;> simp_all

theorem validate_ai_usage_no_errors (c : List Char) (m : WorkflowMetadata) :
    (validate_ai_usage c m).1 = [] := rfl

theorem validate_ai_usage_warn_codes (c : List Char) (m : WorkflowMetadata) :
    ∀ w ∈ (validate_ai_usage c m).2.1,
      w.code = "EXTERNAL_AI_DETECTED" ∨ w.code = "MISSING_ENV_ACCESS" := by
  intro w hw
  simp only [validate_ai_usage, List.mem_append] at hw
  rcases hw with hw | hw
  · left
    split at hw <;> simp_all
  · right
    split at hw <;> simp_all

theorem validate_common_mistakes_err_codes (c : List Char) :
    ∀ e ∈ (validate_common_mistakes c).1, e.code = "HARDCODED_SECRET" := by
  intro e he
  simp only [validate_common_mistakes] at he
  split at he <;> simp_all

theorem validate_common_mistakes_warn_codes (c : List Char) :
    ∀ w ∈ (validate_common_mistakes c).2,
      w.code = "EXCESSIVE_LOGGING" ∨ w.code = "AWAIT_IN_LOOP" ∨ w.code = "EMPTY_CATCH" := by
  intro w hw
  simp only [validate_common_mistakes] at hw
  rcases List.mem_append.mp hw with hw | hw
  · rcases List.mem_append.mp hw with hw | hw
    · left
      split at hw <;> simp_all
    · right; left
      split at hw <;> simp_all
  · right; right
    split at hw <;> simp_all
theorem validate_imports_meta (c : List Char) (m : WorkflowMetadata) :
    (validate_imports c m).2.2 = { m with has_ai := some (aiUsageMatch c) } := rfl

theorem validate_ai_usage_meta (c : List Char) (m : WorkflowMetadata) :
    (validate_ai_usage c m).2.2 = m := rfl

theorem validate_workflow_definition_meta (c : List Char) (m : WorkflowMetadata) :
    ((validate_workflow_definition c m).2.2).trigger = m.trigger ∧
      ((validate_workflow_definition c m).2.2).integrations = m.integrations ∧
        ((validate_workflow_definition c m).2.2).has_ai = m.has_ai := by
  rcases h1 : workflowNameCapture c with - | nm <;>
    rcases h2 : workflowTypeCapture c with - | t <;>
      simp [validate_workflow_definition, h1, h2]

theorem validate_integrations_meta (c : List Char) (m : WorkflowMetadata) :
    ((validate_integrations c m).2.2).trigger = m.trigger ∧
      ((validate_integrations c m).2.2).has_ai = m.has_ai := by
  rcases h1 : integrationsBlockCapture c with - | block
  · simp [validate_integrations, h1]
  · simp only [validate_integrations, h1]
    split <;> simp

theorem validate_trigger_meta (c : List Char) (m : WorkflowMetadata) :
    ((validate_trigger c m).2.2).integrations = m.integrations ∧
      ((validate_trigger c m).2.2).has_ai = m.has_ai := by
  simp only [validate_trigger]
  split
  · exact ⟨rfl, rfl⟩
  · rcases h1 : triggerTypeCapture c with - | t
    · rcases h2 : triggerObjectTypeCapture c with - | t <;> simp [h1, h2]
    · simp [h1]

theorem validate_pricing_meta (c : List Char) (m : WorkflowMetadata) :
    ((validate_pricing c m).2.2).trigger = m.trigger ∧
      ((validate_pricing c m).2.2).integrations = m.integrations ∧
        ((validate_pricing c m).2.2).has_ai = m.has_ai := by
  simp only [validate_pricing]
  split <;> simp

theorem validate_trigger_not_marker (c : List Char) (m : WorkflowMetadata)
    (h : hasTriggerMatch c = false) :
    validate_trigger c m =
      ([(ValidationError.new "MISSING_TRIGGER" "Workflow must define a trigger").with_suggestion
          "Add: trigger: webhook(\x7b service: 'stripe', event: 'payment.succeeded' \x7d)"],
       [], m) := by
  simp [validate_trigger, h]

theorem validate_trigger_marker_errs (c : List Char) (m : WorkflowMetadata)
    (h : hasTriggerMatch c = true) :
    ∀ e ∈ (validate_trigger c m).1, e.code = "INVALID_CRON" := by
  intro e he
  simp only [validate_trigger, h] at he
  split at he
  · simp_all
  · split at he
    · split at he
      · split at he <;> simp_all
      · simp_all
    · simp_all

theorem firstSome_eq_some {α : Type} (f : List Char → Option α) (l : List Char)
    (a : α) (h : firstSome f l = some a) : ∃ l', f l' = some a := by
  induction l with
  | nil => exact ⟨[], h⟩
  | cons c t ih =>
    simp only [firstSome] at h
    rcases hf : f (c :: t) with - | b <;> rw [hf] at h
    · exact ih h
    · exact ⟨c :: t, hf.trans h⟩

theorem tryAltsParen_mem (alts : List (List Char)) (r : List Char) (a : List Char)
    (h : tryAltsParen alts r = some a) : a ∈ alts := by
  induction alts with
  | nil => simp [tryAltsParen] at h
  | cons x more ih =>
    simp only [tryAltsParen] at h
    split at h
    · obtain rfl : x = a := by simpa using h
      exact List.mem_cons_self x more
    · exact List.mem_cons_of_mem _ (ih h)

theorem triggerTypeCapture_mem (c : List Char) (t : List Char)
    (h : triggerTypeCapture c = some t) :
    t = strChars "webhook" ∨ t = strChars "schedule" ∨
      t = strChars "manual" ∨ t = strChars "poll" := by
  obtain ⟨l, hl⟩ := firstSome_eq_some _ _ _ h
  split at hl
  · have hm := tryAltsParen_mem _ _ _ hl
    simpa using hm
  · simp at hl

theorem validate_trigger_trigger_value (c : List Char) (m : WorkflowMetadata) :
    ((validate_trigger c m).2.2).trigger = m.trigger ∨
      ∃ t, ((validate_trigger c m).2.2).trigger = some (String.mk t) ∧
        (t = strChars "webhook" ∨ t = strChars "schedule" ∨ t = strChars "manual" ∨
          t = strChars "poll" ∨ triggerObjectTypeCapture c = some t) := by
  simp only [validate_trigger]
  split
  · left; rfl
  · rcases h1 : triggerTypeCapture c with - | t
    · rcases h2 : triggerObjectTypeCapture c with - | t
      · left
        simp [h1, h2]
      · right
        refine ⟨t, ?_, ?_⟩
        · simp [h1, h2]
        · exact Or.inr (Or.inr (Or.inr (Or.inr rfl)))
    · right
      refine ⟨t, ?_, ?_⟩
      · simp [h1]
      · rcases triggerTypeCapture_mem c t h1 with h | h | h | h
        · exact Or.inl h
        · exact Or.inr (Or.inl h)
        · exact Or.inr (Or.inr (Or.inl h))
        · exact Or.inr (Or.inr (Or.inr (Or.inl h)))

theorem charToNat_ofNat {n : Nat} (h : n.isValidChar) : (Char.ofNat n).toNat = n := by
  unfold Char.ofNat
  rw [dif_pos h]
  rfl

theorem charLe_iff {a b : Char} : a ≤ b ↔ a.toNat ≤ b.toNat := Iff.rfl

theorem asciiLower_idem (c : Char) : asciiLower (asciiLower c) = asciiLower c := by
  unfold asciiLower
  by_cases h : ('A' ≤ c && c ≤ 'Z') = true
  · rw [if_pos h]
    rw [Bool.and_eq_true, decide_eq_true_eq, decide_eq_true_eq] at h
    have hA : 65 ≤ c.toNat := charLe_iff.mp h.1
    have hZ : c.toNat ≤ 90 := charLe_iff.mp h.2
    have hv : (c.toNat + 32).isValidChar := Or.inl (by omega)
    have ht : (Char.ofNat (c.toNat + 32)).toNat = c.toNat + 32 := charToNat_ofNat hv
    rw [if_neg ?hn]
    case hn =>
      intro hcontra
      rw [Bool.and_eq_true, decide_eq_true_eq, decide_eq_true_eq] at hcontra
      have h90 : ('Z').toNat = 90 := rfl
      have := charLe_iff.mp hcontra.2
      rw [ht, h90] at this
      omega
  · rw [if_neg h, if_neg h]

theorem mapAsciiLower_idem (l : List Char) :
    (l.map asciiLower).map asciiLower = l.map asciiLower := by
  rw [List.map_map]
  exact List.map_congr_left fun c _ => asciiLower_idem c
theorem collect_fold_inv (P : String → Prop) (names : List (List Char))
    (init : List String) (hinit : ∀ x ∈ init, P x)
    (hadd : ∀ nm : List Char,
      KNOWN_INTEGRATIONS.contains (String.mk (nm.map asciiLower)) = true →
        P (String.mk (nm.map asciiLower))) :
    ∀ x ∈ names.foldl
        (fun acc nm =>
          let nl := String.mk (nm.map asciiLower)
          if KNOWN_INTEGRATIONS.contains nl && !acc.contains nl then acc ++ [nl] else acc)
        init, P x := by
  induction names generalizing init with
  | nil => simpa using hinit
  | cons nm names ih =>
    intro x hx
    simp only [List.foldl_cons] at hx
    refine ih _ ?_ x hx
    intro y hy
    split at hy
    · rename_i hcond
      rw [Bool.and_eq_true] at hcond
      rcases List.mem_append.mp hy with hy | hy
      · exact hinit y hy
      · obtain rfl := List.mem_singleton.mp hy
        exact hadd nm hcond.1
    · exact hinit y hy

theorem collectIntegrations_mem (block : List Char) (x : String)
    (hx : x ∈ collectIntegrations block) :
    String.mk ((strChars x).map asciiLower) = x ∧
      (x ∈ (serviceCaptures block).map (fun nm => String.mk (nm.map asciiLower)) ∨
        x ∈ KNOWN_INTEGRATIONS) := by
  refine collect_fold_inv
    (fun y => String.mk ((strChars y).map asciiLower) = y ∧
      (y ∈ (serviceCaptures block).map (fun nm => String.mk (nm.map asciiLower)) ∨
        y ∈ KNOWN_INTEGRATIONS))
    (shorthandCaptures block)
    ((serviceCaptures block).map (fun nm => String.mk (nm.map asciiLower))) ?_ ?_ x ?_
  · intro y hy
    obtain ⟨nm, hnm, rfl⟩ := List.mem_map.mp hy
    refine ⟨?_, Or.inl (List.mem_map.mpr ⟨nm, hnm, rfl⟩)⟩
    show String.mk ((nm.map asciiLower).map asciiLower) = _
    rw [mapAsciiLower_idem]
  · intro nm hknown
    refine ⟨?_, Or.inr ?_⟩
    · show String.mk ((nm.map asciiLower).map asciiLower) = _
      rw [mapAsciiLower_idem]
    · simpa using hknown
  · simpa only [collectIntegrations] using hx
theorem splitOnPred_ne_nil (p : Char → Bool) (l : List Char) : splitOnPred p l ≠ [] := by
  induction l with
  | nil => simp [splitOnPred]
  | cons c t ih =>
    simp only [splitOnPred]
    rcases h : splitOnPred p t with - | ⟨q, qs⟩
    · exact absurd h ih
    · by_cases hp : p c = true <;> simp [hp]

theorem splitOnPred_cons_of_neg (p : Char → Bool) (c : Char) (t : List Char)
    (h : p c = false) :
    ∃ q qs, splitOnPred p (c :: t) = (c :: q) :: qs ∧ splitOnPred p t = q :: qs := by
  rcases hh : splitOnPred p t with - | ⟨q, qs⟩
  · exact absurd hh (splitOnPred_ne_nil p t)
  · exact ⟨q, qs, by simp [splitOnPred, hh, h], rfl⟩

theorem splitOnPred_cons_of_pos (p : Char → Bool) (c : Char) (t : List Char)
    (h : p c = true) :
    splitOnPred p (c :: t) = [] :: splitOnPred p t := by
  rcases hh : splitOnPred p t with - | ⟨q, qs⟩
  · exact absurd hh (splitOnPred_ne_nil p t)
  · simp [splitOnPred, hh, h]

theorem cronRangeList_head_digit (c : Char) (t : List Char)
    (h : cronRangeList (c :: t) = true) : isDigitCh c = true := by
  by_cases hc : c = ','
  · subst hc
    rw [cronRangeList, splitOnChar,
      splitOnPred_cons_of_pos _ _ _ (by simp)] at h
    simp [splitOnChar, splitOnPred] at h
  · obtain ⟨q, qs, he, -⟩ :=
      splitOnPred_cons_of_neg (fun x => decide (x = ',')) c t (by simp [hc])
    rw [cronRangeList, splitOnChar, he, List.all_cons, Bool.and_eq_true] at h
    obtain ⟨hseg, -⟩ := h
    by_cases hd : c = '-'
    · subst hd
      rw [splitOnChar, splitOnPred_cons_of_pos _ _ _ (by simp)] at hseg
      simp at hseg
    · obtain ⟨q2, qs2, he2, -⟩ :=
        splitOnPred_cons_of_neg (fun x => decide (x = '-')) c q (by simp [hd])
      rw [splitOnChar, he2] at hseg
      simp only [Bool.and_eq_true, List.all_cons] at hseg
      exact hseg.2.1.2.1

theorem maxValues_le (i : Nat) : maxValues i ≤ 59 := by
  match i with
  | 0 => decide
  | 1 => decide
  | 2 => decide
  | 3 => decide
  | 4 => decide
  | n + 5 =>
    show ([59, 23, 31, 12, 6] : List Nat).getD (n + 5) 0 ≤ 59
    rw [List.getD_eq_default]
    · omega
    · simp

theorem parseU32_digits (num : List Char) (hne : num.isEmpty = false)
    (hd : num.all isDigitCh = true) :
    parseU32 num =
      if digitsToNat num < 4294967296 then some (digitsToNat num) else none := by
  cases num with
  | nil => simp at hne
  | cons c t =>
    have hc : isDigitCh c = true := by
      rw [List.all_cons, Bool.and_eq_true] at hd
      exact hd.1
    have hplus : ¬c = '+' := by
      intro hcc
      subst hcc
      exact absurd hc (by decide)
    simp [parseU32, hplus, hd]
/-- C5: for every cron field in range/list form, the field check accepts if
and only if every number appearing anywhere in the field is at most the
field maximum; no low-le-high check is made, so "50-10 * * * *" is valid
while "0-60 * * * *" is not. -/
theorem cron_range_list_iff_bounded :
    (∀ (i : Fin 5) (part : String), cronRangeList part.data = true →
      cronFieldOk i.val part.data =
        ((cronFieldNumbers part.data).all fun num =>
          decide (digitsToNat num ≤ maxValues i.val))) ∧
      is_valid_cron "50-10 * * * *" = true ∧ is_valid_cron "0-60 * * * *" = false := by
  refine ⟨?_, by decide, by decide⟩
  intro i part h
  have hstar : ¬part.data = ['*'] := by
    intro he
    rw [he] at h
    exact absurd h (by decide)
  have hsw : cronStepWildcard part.data = false := by
    rcases hp : part.data with - | ⟨c1, t⟩
    · rfl
    · rcases t with - | ⟨c2, r⟩
      · rfl
      · by_cases h1 : cronStepWildcard (c1 :: c2 :: r) = true
        · have hc1 : c1 = '*' := by
            simp only [cronStepWildcard, Bool.and_eq_true, decide_eq_true_eq] at h1
            exact h1.1.1.1
          rw [hp, hc1] at h
          exact absurd (cronRangeList_head_digit _ _ h) (by decide)
        · simpa using h1
  rw [cronFieldOk, if_neg hstar, if_neg (by simp [hsw]), if_pos h]
  apply bool_eq_of_iff
  rw [cronFieldNumbers, List.all_eq_true, List.all_eq_true]
  rw [cronRangeList, List.all_eq_true] at h
  constructor
  · intro hL num hnum
    obtain ⟨seg, hseg, hnum2⟩ := List.mem_flatMap.mp hnum
    have h1 := hL seg hseg
    rw [List.all_eq_true] at h1
    have h2 := h1 num hnum2
    have hfacts := h seg hseg
    simp only [Bool.or_eq_true, Bool.and_eq_true, List.all_eq_true,
      decide_eq_true_eq, Bool.not_eq_true'] at hfacts
    obtain ⟨-, hall⟩ := hfacts
    obtain ⟨hne, hdig⟩ := hall num hnum2
    rw [parseU32_digits num hne (by rw [List.all_eq_true]; exact hdig)] at h2
    by_cases hlt : digitsToNat num < 4294967296
    · rw [if_pos hlt] at h2
      exact h2
    · rw [if_neg hlt] at h2
      simp at h2
  · intro hR seg hseg
    rw [List.all_eq_true]
    intro num hnum
    have hfacts := h seg hseg
    simp only [Bool.or_eq_true, Bool.and_eq_true, List.all_eq_true,
      decide_eq_true_eq, Bool.not_eq_true'] at hfacts
    obtain ⟨-, hall⟩ := hfacts
    obtain ⟨hne, hdig⟩ := hall num hnum
    have hv := hR num (List.mem_flatMap.mpr ⟨seg, hseg, hnum⟩)
    rw [parseU32_digits num hne (by rw [List.all_eq_true]; exact hdig)]
    have hle : digitsToNat num ≤ maxValues i.val := by simpa using hv
    have hlt : digitsToNat num < 4294967296 :=
      lt_of_le_of_lt (le_trans hle (maxValues_le _)) (by norm_num)
    rw [if_pos hlt]
    simpa using hle

/-- Witness for the range/list claim at the minute field and input "5". -/
theorem cron_range_list_iff_bounded_witness :
    cronRangeList ("5".data) = true ∧
      cronFieldOk 0 ("5".data) =
        ((cronFieldNumbers ("5".data)).all fun num =>
          decide (digitsToNat num ≤ maxValues 0)) :=
  ⟨by decide, cron_range_list_iff_bounded.1 ⟨0, by decide⟩ "5" (by decide)⟩
/-- C1: for every input text, the result of validate_workflow satisfies
valid = errors.isEmpty -- the final assembly derives valid from emptiness
of the accumulated error list, and no check group sets it otherwise. -/
theorem valid_iff_errors_empty (content : String) :
    (validate_workflow content).valid = (validate_workflow content).errors.isEmpty := rfl

/-- C2: the cron validator splits the trimmed input on whitespace and
rejects any input that does not have exactly five fields; the six listed
examples behave as stated. -/
theorem cron_five_fields_and_examples :
    (∀ s : String, (rustSplitWhitespace (rustTrim s.data)).length ≠ 5 →
        is_valid_cron s = false) ∧
      is_valid_cron "0 8 * * *" = true ∧ is_valid_cron "*/15 * * * *" = true ∧
        is_valid_cron "0 0 1 * *" = true ∧ is_valid_cron "invalid" = false ∧
          is_valid_cron "0 25 * * *" = false ∧ is_valid_cron "60 0 1 1 0" = false := by
  refine ⟨?_, by decide, by decide, by decide, by decide, by decide, by decide⟩
  intro s h
  simp [is_valid_cron, h]

/-- Witness for the five-field claim at the three-field input "1 2 3". -/
theorem cron_five_fields_witness :
    (rustSplitWhitespace (rustTrim ("1 2 3").data)).length ≠ 5 ∧
      is_valid_cron "1 2 3" = false :=
  ⟨by decide, cron_five_fields_and_examples.1 "1 2 3" (by decide)⟩

/-- C8: for every input text the result metadata is present, and its has_ai
field is set to whether the AI-usage marker matched. -/
theorem metadata_and_has_ai_always_present (content : String) :
    (validate_workflow content).metadata.map (fun m => m.has_ai) =
      some (some (aiUsageMatch content.data)) := by
  show some ((wfMeta7 content.data).has_ai) = _
  rw [wfMeta7, validate_ai_usage_meta, wfMeta6, (validate_pricing_meta _ _).2.2,
    wfMeta5, (validate_trigger_meta _ _).2, wfMeta4, (validate_integrations_meta _ _).2,
    wfMeta2, (validate_workflow_definition_meta _ _).2.2, wfMeta1, validate_imports_meta]

/-- C10: the step-wildcard pattern accepts a zero step, so the cron
expression */0 in every field position is valid and a workflow scheduling
it receives no INVALID_CRON error. -/
theorem cron_step_zero_accepted :
    is_valid_cron "*/0 * * * *" = true ∧
      ∀ e ∈ (validate_workflow "trigger: schedule('*/0 * * * *')").errors,
        e.code ≠ "INVALID_CRON" := by
  refine ⟨by decide, ?_⟩
  decide

theorem countP_secret_zero (l : List ValidationError)
    (hl : ∀ e ∈ l, e.code ≠ "HARDCODED_SECRET") :
    l.countP (fun e => e.code == "HARDCODED_SECRET") = 0 := by
  rw [List.countP_eq_zero]
  intro e he
  simpa using hl e he

/-- C6: the error list never contains more than one HARDCODED_SECRET entry
(the four secret-kind checks are OR'd into a single finding), and the input
holding both a long apiKey literal and a password literal yields exactly
one such entry. -/
theorem hardcoded_secret_single_entry :
    (∀ content : String,
        ((validate_workflow content).errors.countP
          (fun e => e.code == "HARDCODED_SECRET")) ≤ 1) ∧
      ((validate_workflow
            "apiKey: \x22abcdefghijklmnopqrstuvwxyz\x22 password: 'hunter2'").errors.countP
        (fun e => e.code == "HARDCODED_SECRET")) = 1 := by
  refine ⟨?_, by decide⟩
  intro content
  show (wfErrors content.data).countP _ ≤ 1
  rw [wfErrors]
  simp only [List.countP_append]
  rw [countP_secret_zero _ (fun e he => by
        rcases validate_imports_err_codes _ _ e he with hc | hc <;> simp [hc]),
    countP_secret_zero _ (fun e he => by
        have hc := validate_workflow_definition_err_codes _ _ e he
        simp [hc]),
    countP_secret_zero _ (fun e he => by
        have hc := validate_execute_function_err_codes _ e he
        simp [hc]),
    countP_secret_zero _ (fun e he => by
        rw [validate_integrations_no_errors] at he
        exact absurd he (by simp)),
    countP_secret_zero _ (fun e he => by
        rcases validate_trigger_err_codes _ _ e he with hc | hc <;> simp [hc]),
    countP_secret_zero _ (fun e he => by
        rw [validate_pricing_no_errors] at he
        exact absurd he (by simp)),
    countP_secret_zero _ (fun e he => by
        rw [validate_ai_usage_no_errors] at he
        exact absurd he (by simp))]
  have h8 : (validate_common_mistakes content.data).1.countP
      (fun e => e.code == "HARDCODED_SECRET") ≤ 1 := by
    simp only [validate_common_mistakes]
    split <;> simp
  omega
theorem wfMeta4_trigger (c : List Char) : (wfMeta4 c).trigger = none := by
  rw [wfMeta4, (validate_integrations_meta _ _).1, wfMeta2,
    (validate_workflow_definition_meta _ _).1, wfMeta1, validate_imports_meta]
  rfl

/-- Counterexample to C3 as stated: two explicit service references to the
same name are both kept, so the stored integrations list contains a
duplicate entry. -/
theorem integrations_duplicate_counterexample :
    resultIntegrations
        (validate_workflow "integrations: [service: 'stripe', service: 'stripe']") =
      some ["stripe", "stripe"] ∧
      ¬(["stripe", "stripe"] : List String).Nodup :=
  ⟨by rfl, by decide⟩

/-- C3 amended: when the integrations metadata is present it is the
nonempty collection extracted from the integrations block -- lowercased
explicit service references in order (not deduplicated among themselves),
plus generic quoted identifiers that belong to the known-integration set
(each added only if not already collected); in particular every entry is
lowercase-fixed and is either a lowercased service capture or a known
integration. -/
theorem integrations_lowercase_known (content : String) (l : List String)
    (h : resultIntegrations (validate_workflow content) = some l) :
    ∃ block, integrationsBlockCapture content.data = some block ∧
      l = collectIntegrations block ∧ l ≠ [] ∧
        ∀ x ∈ l, String.mk ((strChars x).map asciiLower) = x ∧
          (x ∈ (serviceCaptures block).map (fun nm => String.mk (nm.map asciiLower)) ∨
            x ∈ KNOWN_INTEGRATIONS) := by
  have h' : ((validate_integrations content.data (wfMeta2 content.data)).2.2).integrations =
      some l := by
    have e2 : resultIntegrations (validate_workflow content) =
        (wfMeta7 content.data).integrations := rfl
    rw [e2, wfMeta7, validate_ai_usage_meta, wfMeta6, (validate_pricing_meta _ _).2.1,
      wfMeta5, (validate_trigger_meta _ _).1, wfMeta4] at h
    exact h
  have hm2 : (wfMeta2 content.data).integrations = none := by
    rw [wfMeta2, (validate_workflow_definition_meta _ _).2.1, wfMeta1, validate_imports_meta]
    rfl
  rcases hb : integrationsBlockCapture content.data with - | block
  · simp only [validate_integrations, hb] at h'
    rw [hm2] at h'
    exact absurd h' (by simp)
  · simp only [validate_integrations, hb] at h'
    split at h'
    · rename_i hcond
      have hl : collectIntegrations block = l := by simpa using h'
      subst hl
      refine ⟨block, rfl, rfl, ?_, fun x hx => collectIntegrations_mem block x hx⟩
      intro hnil
      rw [hnil] at hcond
      simp at hcond
    · rw [hm2] at h'
      exact absurd h' (by simp)

/-- Witness for the amended integrations claim at the duplicated-service
input. -/
theorem integrations_lowercase_known_witness :
    resultIntegrations
        (validate_workflow "integrations: [service: 'stripe', service: 'stripe']") =
      some ["stripe", "stripe"] ∧
      ∃ block,
        integrationsBlockCapture
            ("integrations: [service: 'stripe', service: 'stripe']").data = some block ∧
          ["stripe", "stripe"] = collectIntegrations block ∧
            (["stripe", "stripe"] : List String) ≠ [] ∧
              ∀ x ∈ (["stripe", "stripe"] : List String),
                String.mk ((strChars x).map asciiLower) = x ∧
                  (x ∈ (serviceCaptures block).map
                      (fun nm => String.mk (nm.map asciiLower)) ∨
                    x ∈ KNOWN_INTEGRATIONS) :=
  ⟨by rfl, integrations_lowercase_known _ _ (by rfl)⟩

/-- Counterexample to C4 as stated: the object-style pattern captures an
arbitrary type string, so a declared type outside the four trigger kinds is
stored verbatim in the metadata. -/
theorem trigger_object_type_counterexample :
    resultTrigger (validate_workflow "trigger: \x7b type: 'bogus' \x7d") = some "bogus" ∧
      ¬("bogus" = "webhook" ∨ "bogus" = "schedule" ∨ "bogus" = "manual" ∨
        "bogus" = "poll") :=
  ⟨by rfl, by decide⟩

/-- C4 amended: whenever the trigger metadata is set, its value is one of
the four call-style kinds or else the verbatim string captured by the
object-style pattern trigger: \x7b type: '...' \x7d. -/
theorem trigger_value_provenance (content : String) (t : String)
    (h : resultTrigger (validate_workflow content) = some t) :
    t = "webhook" ∨ t = "schedule" ∨ t = "manual" ∨ t = "poll" ∨
      triggerObjectTypeCapture content.data = some t.data := by
  have e1 : resultTrigger (validate_workflow content) = (wfMeta7 content.data).trigger := rfl
  rw [e1, wfMeta7, validate_ai_usage_meta, wfMeta6, (validate_pricing_meta _ _).1,
    wfMeta5] at h
  rcases validate_trigger_trigger_value content.data (wfMeta4 content.data) with
    hv | ⟨t0, hv, hcases⟩
  · rw [hv, wfMeta4_trigger] at h
    exact absurd h (by simp)
  · rw [hv] at h
    have ht : String.mk t0 = t := by simpa using h
    rcases hcases with h1 | h1 | h1 | h1 | h1
    · left
      rw [← ht, h1]
      rfl
    · right; left
      rw [← ht, h1]
      rfl
    · right; right; left
      rw [← ht, h1]
      rfl
    · right; right; right; left
      rw [← ht, h1]
      rfl
    · right; right; right; right
      rw [← ht]
      exact h1

/-- Witness for the amended trigger claim at a call-style manual trigger. -/
theorem trigger_value_provenance_witness :
    resultTrigger (validate_workflow "trigger: manual()") = some "manual" ∧
      ("manual" = "webhook" ∨ "manual" = "schedule" ∨ "manual" = "manual" ∨
        "manual" = "poll" ∨
          triggerObjectTypeCapture ("trigger: manual()").data = some ("manual").data) :=
  ⟨by rfl, trigger_value_provenance "trigger: manual()" "manual" (by rfl)⟩
/-- C7: an input lacking the trigger marker gets error MISSING_TRIGGER and
none of the trigger sub-checks (no INVALID_CRON error, no
INCOMPLETE_WEBHOOK warning, no trigger metadata); an input with the marker
never gets MISSING_TRIGGER. -/
theorem missing_trigger_skips_subchecks (content : String) :
    (hasTriggerMatch content.data = false →
      (∃ e ∈ (validate_workflow content).errors, e.code = "MISSING_TRIGGER") ∧
        (∀ e ∈ (validate_workflow content).errors, e.code ≠ "INVALID_CRON") ∧
          (∀ w ∈ (validate_workflow content).warnings, w.code ≠ "INCOMPLETE_WEBHOOK") ∧
            resultTrigger (validate_workflow content) = none) ∧
      (hasTriggerMatch content.data = true →
        ∀ e ∈ (validate_workflow content).errors, e.code ≠ "MISSING_TRIGGER") := by
  constructor
  · intro h
    refine ⟨?_, ?_, ?_, ?_⟩
    · refine ⟨(ValidationError.new "MISSING_TRIGGER" "Workflow must define a trigger").with_suggestion
          "Add: trigger: webhook(\x7b service: 'stripe', event: 'payment.succeeded' \x7d)",
        ?_, rfl⟩
      show _ ∈ wfErrors content.data
      rw [wfErrors]
      have h5 : (ValidationError.new "MISSING_TRIGGER" "Workflow must define a trigger").with_suggestion
          "Add: trigger: webhook(\x7b service: 'stripe', event: 'payment.succeeded' \x7d)" ∈
            (validate_trigger content.data (wfMeta4 content.data)).1 := by
        rw [validate_trigger_not_marker _ _ h]
        exact List.mem_singleton_self _
      exact List.mem_append_left _ (List.mem_append_left _ (List.mem_append_left _
        (List.mem_append_right _ h5)))
    · intro e he
      have he' : e ∈ wfErrors content.data := he
      simp only [wfErrors, List.mem_append] at he'
      rcases he' with ((((((h1 | h2) | h3) | h4) | h5) | h6) | h7) | h8
      · rcases validate_imports_err_codes _ _ e h1 with hc | hc <;> simp [hc]
      · have hc := validate_workflow_definition_err_codes _ _ e h2
        simp [hc]
      · have hc := validate_execute_function_err_codes _ e h3
        simp [hc]
      · rw [validate_integrations_no_errors] at h4
        exact absurd h4 (by simp)
      · rw [validate_trigger_not_marker _ _ h] at h5
        obtain rfl := List.mem_singleton.mp h5
        simp
      · rw [validate_pricing_no_errors] at h6
        exact absurd h6 (by simp)
      · rw [validate_ai_usage_no_errors] at h7
        exact absurd h7 (by simp)
      · have hc := validate_common_mistakes_err_codes _ e h8
        simp [hc]
    · intro w hw
      have hw' : w ∈ wfWarnings content.data := hw
      simp only [wfWarnings, List.mem_append] at hw'
      rcases hw' with ((((((h1 | h2) | h3) | h4) | h5) | h6) | h7) | h8
      · rcases validate_imports_warn_codes _ _ w h1 with hc | hc <;> simp [hc]
      · have hc := validate_workflow_definition_warn_codes _ _ w h2
        simp [hc]
      · have hc := validate_execute_function_warn_codes _ w h3
        simp [hc]
      · rcases validate_integrations_warn_codes _ _ w h4 with hc | hc <;> simp [hc]
      · rw [validate_trigger_not_marker _ _ h] at h5
        exact absurd h5 (by simp)
      · rcases validate_pricing_warn_codes _ _ w h6 with hc | hc <;> simp [hc]
      · rcases validate_ai_usage_warn_codes _ _ w h7 with hc | hc <;> simp [hc]
      · rcases validate_common_mistakes_warn_codes _ w h8 with hc | hc | hc <;> simp [hc]
    · show (wfMeta7 content.data).trigger = none
      rw [wfMeta7, validate_ai_usage_meta, wfMeta6, (validate_pricing_meta _ _).1,
        wfMeta5, validate_trigger_not_marker _ _ h]
      exact wfMeta4_trigger content.data
  · intro h e he
    have he' : e ∈ wfErrors content.data := he
    simp only [wfErrors, List.mem_append] at he'
    rcases he' with ((((((h1 | h2) | h3) | h4) | h5) | h6) | h7) | h8
    · rcases validate_imports_err_codes _ _ e h1 with hc | hc <;> simp [hc]
    · have hc := validate_workflow_definition_err_codes _ _ e h2
      simp [hc]
    · have hc := validate_execute_function_err_codes _ e h3
      simp [hc]
    · rw [validate_integrations_no_errors] at h4
      exact absurd h4 (by simp)
    · have hc := validate_trigger_marker_errs _ _ h e h5
      simp [hc]
    · rw [validate_pricing_no_errors] at h6
      exact absurd h6 (by simp)
    · rw [validate_ai_usage_no_errors] at h7
      exact absurd h7 (by simp)
    · have hc := validate_common_mistakes_err_codes _ e h8
      simp [hc]

/-- Witness for the trigger-skip claim at an input without the marker and
one with it. -/
theorem missing_trigger_skips_subchecks_witness :
    (∃ e ∈ (validate_workflow "x").errors, e.code = "MISSING_TRIGGER") ∧
      resultTrigger (validate_workflow "x") = none ∧
        ∀ e ∈ (validate_workflow "trigger: manual()").errors, e.code ≠ "MISSING_TRIGGER" :=
  ⟨((missing_trigger_skips_subchecks "x").1 (by decide)).1,
    ((missing_trigger_skips_subchecks "x").1 (by decide)).2.2.2,
    (missing_trigger_skips_subchecks "trigger: manual()").2 (by decide)⟩
/-- C9: the EXCESSIVE_LOGGING warning appears exactly when the count of
console.log/error/warn occurrences exceeds three, its message embeds that
literal count, and a text with exactly three occurrences gets no such
warning. -/
theorem excessive_logging_iff_count (content : String) :
    ((∃ w ∈ (validate_workflow content).warnings, w.code = "EXCESSIVE_LOGGING") ↔
        3 < consoleCount content.data) ∧
      (∀ w ∈ (validate_workflow content).warnings, w.code = "EXCESSIVE_LOGGING" →
        w.message = "Found " ++ toString (consoleCount content.data) ++ " console statements") ∧
      consoleCount ("console.log console.error console.warn x").data = 3 ∧
      (∀ w ∈ (validate_workflow "console.log console.error console.warn x").warnings,
        w.code ≠ "EXCESSIVE_LOGGING") := by
  refine ⟨⟨?_, ?_⟩, ?_, by decide, by decide⟩
  · rintro ⟨w, hw, hcode⟩
    have hw' : w ∈ wfWarnings content.data := hw
    simp only [wfWarnings, List.mem_append] at hw'
    rcases hw' with ((((((h1 | h2) | h3) | h4) | h5) | h6) | h7) | h8
    · rcases validate_imports_warn_codes _ _ w h1 with hc | hc <;>
        exact absurd (hc.symm.trans hcode) (by decide)
    · exact absurd ((validate_workflow_definition_warn_codes _ _ w h2).symm.trans hcode)
        (by decide)
    · exact absurd ((validate_execute_function_warn_codes _ w h3).symm.trans hcode)
        (by decide)
    · rcases validate_integrations_warn_codes _ _ w h4 with hc | hc <;>
        exact absurd (hc.symm.trans hcode) (by decide)
    · exact absurd ((validate_trigger_warn_codes _ _ w h5).symm.trans hcode) (by decide)
    · rcases validate_pricing_warn_codes _ _ w h6 with hc | hc <;>
        exact absurd (hc.symm.trans hcode) (by decide)
    · rcases validate_ai_usage_warn_codes _ _ w h7 with hc | hc <;>
        exact absurd (hc.symm.trans hcode) (by decide)
    · simp only [validate_common_mistakes] at h8
      rcases List.mem_append.mp h8 with h8 | h8
      · rcases List.mem_append.mp h8 with h8 | h8
        · split at h8
          · assumption
          · exact absurd h8 (by simp)
        · split at h8
          · obtain rfl := List.mem_singleton.mp h8
            exact absurd hcode (by decide)
          · exact absurd h8 (by simp)
      · split at h8
        · obtain rfl := List.mem_singleton.mp h8
          exact absurd hcode (by decide)
        · exact absurd h8 (by simp)
  · intro hcount
    refine ⟨(ValidationWarning.new "EXCESSIVE_LOGGING"
        ("Found " ++ toString (consoleCount content.data) ++ " console statements")).with_suggestion
          "Consider reducing logging in production builds", ?_, rfl⟩
    show _ ∈ wfWarnings content.data
    rw [wfWarnings]
    have h8 : (ValidationWarning.new "EXCESSIVE_LOGGING"
        ("Found " ++ toString (consoleCount content.data) ++ " console statements")).with_suggestion
          "Consider reducing logging in production builds" ∈
            (validate_common_mistakes content.data).2 := by
      simp only [validate_common_mistakes]
      apply List.mem_append_left
      apply List.mem_append_left
      rw [if_pos hcount]
      exact List.mem_singleton_self _
    exact List.mem_append_right _ h8
  · intro w hw hcode
    have hw' : w ∈ wfWarnings content.data := hw
    simp only [wfWarnings, List.mem_append] at hw'
    rcases hw' with ((((((h1 | h2) | h3) | h4) | h5) | h6) | h7) | h8
    · rcases validate_imports_warn_codes _ _ w h1 with hc | hc <;>
        exact absurd (hc.symm.trans hcode) (by decide)
    · exact absurd ((validate_workflow_definition_warn_codes _ _ w h2).symm.trans hcode)
        (by decide)
    · exact absurd ((validate_execute_function_warn_codes _ w h3).symm.trans hcode)
        (by decide)
    · rcases validate_integrations_warn_codes _ _ w h4 with hc | hc <;>
        exact absurd (hc.symm.trans hcode) (by decide)
    · exact absurd ((validate_trigger_warn_codes _ _ w h5).symm.trans hcode) (by decide)
    · rcases validate_pricing_warn_codes _ _ w h6 with hc | hc <;>
        exact absurd (hc.symm.trans hcode) (by decide)
    · rcases validate_ai_usage_warn_codes _ _ w h7 with hc | hc <;>
        exact absurd (hc.symm.trans hcode) (by decide)
    · simp only [validate_common_mistakes] at h8
      rcases List.mem_append.mp h8 with h8 | h8
      · rcases List.mem_append.mp h8 with h8 | h8
        · split at h8
          · obtain rfl := List.mem_singleton.mp h8
            rfl
          · exact absurd h8 (by simp)
        · split at h8
          · obtain rfl := List.mem_singleton.mp h8
            exact absurd hcode (by decide)
          · exact absurd h8 (by simp)
      · split at h8
        · obtain rfl := List.mem_singleton.mp h8
          exact absurd hcode (by decide)
        · exact absurd h8 (by simp)

/-- Witness for the excessive-logging claim at an input with four console
statements. -/
theorem excessive_logging_iff_count_witness :
    ∃ w ∈ (validate_workflow "console.log console.log console.log console.log").warnings,
      w.code = "EXCESSIVE_LOGGING" :=
  (excessive_logging_iff_count "console.log console.log console.log console.log").1.mpr
    (by decide)
